/-
Verification of the dependency discovery, classification and impact-analysis
pipeline of the ai-auto-upgrade repository.

The Python sources (dependency_scanner.py, code_impact_analyzer.py,
pr_creator.py) are shallowly embedded below: every function is translated
into an executable Lean definition over explicit data (the filesystem is a
list of file names present at the repository root, file contents are lists
of lines, network results are parameters).  Theorems about the embedded
definitions then settle the specification's claims.
-/
import Mathlib

/-! ## String and list utilities shared by the embeddings

Python's `sep in s` / `s.split(sep, 1)` pair is embedded by a single
function returning the text before and after the first occurrence of the
separator, or `none` when the separator does not occur. -/

/-- Python `s.split(sep, 1)` on character lists: text before and after the
first occurrence of `sep`, or `none` when `sep` does not occur
(`sep in s` is exactly `(splitOnce sep s).isSome`). -/
def splitOnce (sep : List Char) : List Char → Option (List Char × List Char)
  | [] => if sep = [] then some ([], []) else none
  | c :: cs =>
    if sep.isPrefixOf (c :: cs) then some ([], (c :: cs).drop sep.length)
    else
      match splitOnce sep cs with
      | some (pre, post) => some (c :: pre, post)
      | none => none

/-- Python `s.strip()`: drop leading and trailing whitespace. -/
def pyStrip (s : String) : String :=
  String.mk
    (((s.data.dropWhile Char.isWhitespace).reverse.dropWhile Char.isWhitespace).reverse)

/-- Python `s.startswith(p)`. -/
def pyStartsWith (s p : String) : Bool :=
  p.data.isPrefixOf s.data

/-- Python `s.lower()` on the ASCII severity tags used here. -/
def pyLower (s : String) : String :=
  String.mk (s.data.map Char.toLower)

/-- Python `sep.join(parts)`. -/
def pyJoin (sep : String) : List String → String
  | [] => ""
  | [x] => x
  | x :: xs => x ++ sep ++ pyJoin sep xs

/-- Python `s.split(sep)` for a single-character separator: split on every
occurrence (never returns an empty list). -/
def charSplitAll (sep : Char) : List Char → List (List Char)
  | [] => [[]]
  | c :: cs =>
    match charSplitAll sep cs with
    | [] => [[]]
    | part :: parts => if c = sep then [] :: part :: parts else (c :: part) :: parts

/-! ## Semantic-version parsing (the `semver.VersionInfo.parse` library call)

`dependency_scanner.py` classifies npm updates by parsing both version
strings with `semver.VersionInfo.parse` (strict semantic versioning:
`major.minor.patch`, numeric identifiers without leading zeros, optional
`-prerelease` and `+build` suffixes).  The parser is embedded here from the
semantic-versioning grammar the library implements. -/

structure SemVer where
  major : Nat
  minor : Nat
  patch : Nat
  prerelease : List String
  build : List String
deriving DecidableEq, Repr

/-- Digits of a numeric identifier to its value. -/
def digitsToNat (s : List Char) : Nat :=
  s.foldl (fun n c => n * 10 + (c.toNat - 48)) 0

/-- A numeric semver identifier: nonempty, all digits, no leading zero. -/
def parseNumericId (s : List Char) : Option Nat :=
  if s = [] then none
  else if ¬ s.all Char.isDigit then none
  else if s.head? = some '0' ∧ s.length > 1 then none
  else some (digitsToNat s)

/-- A character allowed in prerelease/build identifiers. -/
def isIdentChar (c : Char) : Bool :=
  c.isAlpha || c.isDigit || c = '-'

/-- A valid prerelease identifier: nonempty alphanumeric/hyphen; purely
numeric identifiers must not have a leading zero. -/
def validPrereleaseId (s : List Char) : Bool :=
  !s.isEmpty && s.all isIdentChar &&
    (if s.all Char.isDigit then !(s.head? = some '0' && s.length > 1) else true)

/-- A valid build identifier: nonempty alphanumeric/hyphen. -/
def validBuildId (s : List Char) : Bool :=
  !s.isEmpty && s.all isIdentChar

/-- Parse a dot-separated identifier list, validating each identifier. -/
def parseIds (valid : List Char → Bool) (s : List Char) : Option (List String) :=
  let ids := charSplitAll '.' s
  if ids.all valid then some (ids.map String.mk) else none

/-- Strict semantic-version parsing (`semver.VersionInfo.parse`).  The build
suffix starts at the first `+`; the prerelease suffix starts at the first
`-` of the remainder; the core must be exactly three numeric identifiers. -/
def semverParse (s : String) : Option SemVer :=
  let (rest, buildPart) :=
    match splitOnce ['+'] s.data with
    | some (a, b) => (a, some b)
    | none => (s.data, none)
  let (corePart, prePart) :=
    match splitOnce ['-'] rest with
    | some (a, b) => (a, some b)
    | none => (rest, none)
  match charSplitAll '.' corePart with
  | [ma, mi, pa] =>
    match parseNumericId ma, parseNumericId mi, parseNumericId pa with
    | some major, some minor, some patch =>
      let pre : Option (List String) :=
        match prePart with
        | none => some []
        | some l => parseIds validPrereleaseId l
      let bld : Option (List String) :=
        match buildPart with
        | none => some []
        | some l => parseIds validBuildId l
      match pre, bld with
      | some p, some b => some ⟨major, minor, patch, p, b⟩
      | _, _ => none
    | _, _, _ => none
  | _ => none

/-! ## The update classifier (dependency_scanner.py lines 101-116)

`_scan_npm_dependencies` classifies each dependency's update: if the latest
version string differs from the current one it parses both and compares
major then minor components (`except` mapping parse failures to
`"unknown"`); equal strings are `"none"`.  The pip/maven/gradle scanners
repeat the same structure with `packaging.version.parse`. -/

def classifyUpdate (currentVersion latestVersion : String) : String :=
  if latestVersion ≠ currentVersion then
    match semverParse currentVersion, semverParse latestVersion with
    | some currentSemver, some latestSemver =>
      if latestSemver.major > currentSemver.major then "major"
      else if latestSemver.minor > currentSemver.minor then "minor"
      else "patch"
    | _, _ => "unknown"
  else "none"

/-! ## Dependencies, vulnerabilities and upgrade candidates
(dependency_scanner.py lines 441-485)

`get_upgrade_candidates` walks the scanned dependency list, keeps those
whose latest version is known and differs from the current one, computes a
priority from the vulnerability list and the caller-supplied minimum
severity, and finally sorts by priority rank with Python's stable
`list.sort`. -/

structure Vuln where
  severity : String
  description : String
  fixed_in : String
deriving DecidableEq, Repr

structure Dep where
  name : String
  current_version : String
  latest_version : String
  update_type : String
  vulnerabilities : List Vuln
deriving DecidableEq, Repr

structure Candidate where
  name : String
  current_version : String
  latest_version : String
  update_type : String
  vulnerabilities : List Vuln
  priority : String
deriving DecidableEq, Repr

/-- The per-vulnerability test of dependency_scanner.py line 463:
`severity in ["critical", "high"] or (severity == "medium" and min_severity
in ["medium", "low"]) or (severity == "low" and min_severity == "low")`,
where `severity` is the vulnerability's severity lowercased. -/
def qualifiesVuln (min_severity : String) (v : Vuln) : Bool :=
  let severity := pyLower v.severity
  (severity = "critical" || severity = "high") ||
    (severity = "medium" && (min_severity = "medium" || min_severity = "low")) ||
    (severity = "low" && min_severity = "low")

/-- The `has_vulnerabilities` flag of the loop at lines 460-465: true when
some vulnerability of the dependency passes the severity test. -/
def hasVulnerabilities (min_severity : String) (d : Dep) : Bool :=
  d.vulnerabilities.any (qualifiesVuln min_severity)

/-- The priority assignment of lines 467-471: `"high"` on a qualifying
vulnerability, else `"medium"` on a patch update, else `"low"`. -/
def upgradePriority (min_severity : String) (d : Dep) : String :=
  if hasVulnerabilities min_severity d then "high"
  else if d.update_type = "patch" then "medium"
  else "low"

/-- The candidate record appended at lines 473-480. -/
def mkCandidate (min_severity : String) (d : Dep) : Candidate :=
  ⟨d.name, d.current_version, d.latest_version, d.update_type,
    d.vulnerabilities, upgradePriority min_severity d⟩

/-- The filtering loop of lines 456-480: keep dependencies whose latest
version is known (`≠ "unknown"`) and differs from the current version,
projecting each to a candidate. -/
def collectCandidates (min_severity : String) : List Dep → List Candidate
  | [] => []
  | d :: ds =>
    if d.latest_version ≠ "unknown" ∧ d.latest_version ≠ d.current_version then
      mkCandidate min_severity d :: collectCandidates min_severity ds
    else collectCandidates min_severity ds

/-- The sort key of line 483: `{"high": 0, "medium": 1, "low": 2}[priority]`
(every candidate's priority is one of the three keys, so the lookup never
fails; other strings are mapped to the last rank to keep the function
total). -/
def priorityRank (priority : String) : Nat :=
  if priority = "high" then 0
  else if priority = "medium" then 1
  else 2

/-- Stable insertion of a candidate in front of the first element of equal
or larger rank: the building block of a stable ascending sort. -/
def insertByRank (c : Candidate) : List Candidate → List Candidate
  | [] => [c]
  | d :: ds =>
    if priorityRank c.priority ≤ priorityRank d.priority then c :: d :: ds
    else d :: insertByRank c ds

/-- Python's `list.sort(key=...)` at line 483 is a stable ascending sort by
the key; it is embedded as stable insertion sort. -/
def sortByPriority : List Candidate → List Candidate
  | [] => []
  | c :: cs => insertByRank c (sortByPriority cs)

/-- The body of `get_upgrade_candidates`, given the scanned dependency list: filter,
prioritize, then stable-sort by priority rank. -/
def getUpgradeCandidatesFrom (deps : List Dep) (min_severity : String) :
    List Candidate :=
  sortByPriority (collectCandidates min_severity deps)

/-- Severity tier of the four documented severity tags, used to state
claims about "at or above the minimum severity"; undefined on other
strings. -/
def severityRank (s : String) : Option Nat :=
  if s = "low" then some 0
  else if s = "medium" then some 1
  else if s = "high" then some 2
  else if s = "critical" then some 3
  else none

/-- Decidable form of "the vulnerability severity is at or above the
caller-supplied minimum severity" (the specification's priority rule). -/
def atOrAbove (min_severity severity : String) : Bool :=
  match severityRank min_severity, severityRank (pyLower severity) with
  | some rm, some rs => rm ≤ rs
  | _, _ => false

/-! ## Project-type detection (dependency_scanner.py lines 23-41)

The repository root is embedded as the list of file names that exist there
(`os.path.exists(os.path.join(repo_path, f))` is `files.contains f`).  The
same detection function appears verbatim in dependency_scanner.py (line
23), code_impact_analyzer.py (line 41) and pr_creator.py (line 49); one
embedding covers all three. -/

def detectProjectType (files : List String) : String :=
  if files.contains "package.json" then "npm"
  else if files.contains "pom.xml" then "maven"
  else if files.contains "requirements.txt" || files.contains "setup.py" then "pip"
  else if files.contains "build.gradle" || files.contains "build.gradle.kts" then "gradle"
  else "unknown"

/-! ## Dependency scanning dispatch (dependency_scanner.py lines 43-61)

`scan_dependencies` dispatches on the detected project type and raises
`ValueError(f"Unsupported project type: {project_type}")` otherwise; the
per-ecosystem scan results (which involve the network) are parameters of
the environment.  `get_upgrade_candidates` (line 451) calls it outside any
handler, so the exception propagates. -/

structure ScanEnv where
  files : List String
  npmResult : List Dep
  pipResult : List Dep
  mavenResult : List Dep
  gradleResult : List Dep

def scanDependencies (env : ScanEnv) : Except String (List Dep) :=
  let project_type := detectProjectType env.files
  if project_type = "npm" then .ok env.npmResult
  else if project_type = "pip" then .ok env.pipResult
  else if project_type = "maven" then .ok env.mavenResult
  else if project_type = "gradle" then .ok env.gradleResult
  else .error ("Unsupported project type: " ++ project_type)

def getUpgradeCandidatesE (env : ScanEnv) (min_severity : String) :
    Except String (List Candidate) :=
  match scanDependencies env with
  | .error e => .error e
  | .ok deps => .ok (getUpgradeCandidatesFrom deps min_severity)

/-! ## The pip manifest line scanner (dependency_scanner.py lines 137-153)

`_scan_pip_dependencies` iterates the lines of requirements.txt, strips
each, skips empty and `#`-leading lines, and on `'==' in line` records
`line.split('==', 1)` with both halves stripped. -/

/-- What one requirements.txt line contributes: `none` when skipped or not
an exact pin, `some (name, version)` otherwise. -/
def scanPipLine (rawLine : String) : Option (String × String) :=
  let line := pyStrip rawLine
  if line = "" || pyStartsWith line "#" then none
  else
    match splitOnce ['=', '='] line.data with
    | some (name, ver) => some (pyStrip (String.mk name), pyStrip (String.mk ver))
    | none => none

/-- The dependency list `_scan_pip_dependencies` builds from the manifest
lines (each entry additionally tagged `"production"` in the source). -/
def parseRequirements (lines : List String) : List (String × String) :=
  lines.filterMap scanPipLine

/-! ## Writing a pip dependency update (pr_creator.py lines 110-130)

`_update_pip_dependency` maps over the lines read by `readlines`
(newline-terminated), replacing every line whose stripped form starts with
`f"{dependency_name}=="` by the new pin and remembering whether one was
found; if none was, the new pin is appended. -/

/-- The replacement line `f"{dependency_name}=={target_version}\n"`. -/
def pinLine (dependency_name target_version : String) : String :=
  dependency_name ++ "==" ++ target_version ++ "\n"

/-- The match test `line.strip().startswith(f"{dependency_name}==")`. -/
def matchesPin (dependency_name : String) (line : String) : Bool :=
  pyStartsWith (pyStrip line) (dependency_name ++ "==")

/-- The loop of lines 117-122: the rewritten lines and the `found` flag. -/
def updatePipLoop (dependency_name target_version : String) :
    List String → List String × Bool
  | [] => ([], false)
  | l :: ls =>
    let (rest, found) := updatePipLoop dependency_name target_version ls
    if matchesPin dependency_name l then
      (pinLine dependency_name target_version :: rest, true)
    else (l :: rest, found)

/-- The rewrite of `_update_pip_dependency` on the list of manifest lines: rewrite, and
append one new pin when no line matched. -/
def updatePipRequirements (dependency_name target_version : String)
    (lines : List String) : List String :=
  let (updated, found) := updatePipLoop dependency_name target_version lines
  if found then updated
  else updated ++ [pinLine dependency_name target_version]

/-! ## Java usage-pattern candidates (code_impact_analyzer.py lines 201-225)

`_find_java_dependency_usage` splits `group:artifact` on `:` (falling back
to the whole name when the two-way unpack raises), and for hyphenated
artifact ids produces the literal id plus camelCase and PascalCase
transforms built with Python's `str.capitalize`. -/

/-- Python `str.capitalize`: first character uppercased, the rest
lowercased. -/
def pyCapitalize (s : List Char) : String :=
  match s with
  | [] => ""
  | c :: cs => String.mk (c.toUpper :: cs.map Char.toLower)

/-- The artifact id: second component of a `group:artifact` name, or the
whole name when `dependency_name.split(":")` does not have exactly two
parts (the `except` branch at line 204). -/
def artifactIdOf (dependency_name : String) : String :=
  match charSplitAll ':' dependency_name.data with
  | [_, artifact_id] => String.mk artifact_id
  | _ => dependency_name

/-- The camelCase transform of lines 217-218:
`parts[0] + "".join(p.capitalize() for p in parts[1:])`. -/
def camelCaseOf (artifact_id : String) : String :=
  match charSplitAll '-' artifact_id.data with
  | [] => ""
  | p :: ps => String.mk p ++ pyJoin "" (ps.map pyCapitalize)

/-- The PascalCase transform of line 222:
`"".join(p.capitalize() for p in parts)`. -/
def pascalCaseOf (artifact_id : String) : String :=
  pyJoin "" ((charSplitAll '-' artifact_id.data).map pyCapitalize)

/-- The `package_name_candidates` list of lines 209-225: for artifact ids
containing `-`, the literal id, its camelCase and its PascalCase forms;
otherwise just the literal id. -/
def packageNameCandidates (dependency_name : String) : List String :=
  let artifact_id := artifactIdOf dependency_name
  if (splitOnce ['-'] artifact_id.data).isSome then
    [artifact_id, camelCaseOf artifact_id, pascalCaseOf artifact_id]
  else [artifact_id]

/-! ## The vulnerability-check scratch directory
(dependency_scanner.py lines 368-439)

The npm branch of `_check_vulnerabilities` creates `temp_audit`, writes a
throwaway package.json into it, runs `npm audit --json` inside an inner
`try` whose success path and `except` handler both `shutil.rmtree` the
directory, and parses the audit output.  The outer `try` of line 381
catches an exception raised while creating or writing the manifest and
returns `[]` without removing the directory.  The embedding tracks, for
every combination of failure points, the returned vulnerability list and
whether the scratch directory has been removed when the call returns. -/

structure AuditEnv where
  /-- Whether `open`/`json.dump` of the scratch manifest raises (e.g. disk full). -/
  manifestWriteRaises : Bool
  /-- Whether the audit subprocess invocation raises. -/
  auditRunRaises : Bool
  /-- Return code of the audit subprocess when it ran. -/
  auditReturncode : Int
  /-- Parsed audit output: `none` for malformed JSON (`JSONDecodeError`),
  `some entries` for the `vulnerabilities` map as (name, data) pairs. -/
  auditOutput : Option (List (String × Vuln))

/-- The npm branch of `_check_vulnerabilities`: the returned vulnerability
list, paired with `true` exactly when the `temp_audit` scratch directory
has been removed on return. -/
def checkVulnerabilitiesNpm (package_name : String) (env : AuditEnv) :
    List Vuln × Bool :=
  if env.manifestWriteRaises then ([], false)
  else if env.auditRunRaises then ([], true)
  else if env.auditReturncode = 0 then ([], true)
  else
    match env.auditOutput with
    | none => ([], true)
    | some entries =>
      ((entries.filter (fun e => e.1 = package_name)).map (fun e => e.2), true)

/-! ## Impact-summarizer snippet extraction
(code_impact_analyzer.py lines 271-319)

`extract_api_usage_examples` walks the usage hits, skips files already
processed (a file is marked processed before it is opened, so an unreadable
file is also never revisited), slices `lines[max(0, idx-5) : min(len,
idx+15)]` around the 0-based hit index, joins the slice with newlines into
a labeled snippet, and breaks once the example list has reached
`max_examples` (checked after appending; the source's default is 10).
File contents are a parameter mapping a path to its lines, `none` when
`open` raises. -/

structure Usage where
  file : String
  line : Int
deriving DecidableEq, Repr

/-- The slice `lines[start:end]` of lines 308-311 around a 1-based hit
line. -/
def snippetWindow (lines : List String) (line : Int) : List String :=
  let lineIndex : Int := line - 1
  let start : Int := max 0 (lineIndex - 5)
  let stop : Int := min (lines.length : Int) (lineIndex + 15)
  ((lines.drop start.toNat).take (stop - start).toNat)

/-- The labeled snippet appended at line 312. -/
def mkExample (file : String) (lines : List String) (line : Int) : String :=
  "File: " ++ file ++ "\n```\n" ++
    pyJoin "\n" (snippetWindow lines line) ++ "\n```"

/-- The loop of lines 290-317 with its `processed_files` and `examples`
accumulators. -/
def extractLoop (fileLines : String → Option (List String))
    (max_examples : Nat) :
    List Usage → List String → List String → List String
  | [], _, examples => examples
  | u :: us, processedFiles, examples =>
    if processedFiles.contains u.file then
      extractLoop fileLines max_examples us processedFiles examples
    else
      let processedFiles := u.file :: processedFiles
      match fileLines u.file with
      | none => extractLoop fileLines max_examples us processedFiles examples
      | some lines =>
        let examples := examples ++ [mkExample u.file lines u.line]
        if max_examples ≤ examples.length then examples
        else extractLoop fileLines max_examples us processedFiles examples

/-- The full `extract_api_usage_examples` on a usage-hit list (the source's
`max_examples` default is 10; the early return on an empty hit list equals
the loop on `[]`). -/
def extractApiUsageExamples (fileLines : String → Option (List String))
    (usages : List Usage) (max_examples : Nat) : List String :=
  extractLoop fileLines max_examples usages [] []

/-- One representative hit per file, in first-hit order: the deduplication
the claim describes (later hits in an already-visited file are skipped). -/
def dedupByFile : List Usage → List String → List Usage
  | [], _ => []
  | u :: us, seen =>
    if seen.contains u.file then dedupByFile us seen
    else u :: dedupByFile us (u.file :: seen)

/-- The snippet list the claim describes: one snippet per readable distinct
file, in first-hit order, before truncation to the maximum count. -/
def specSnippets (fileLines : String → Option (List String))
    (usages : List Usage) : List String :=
  (dedupByFile usages []).filterMap
    (fun u => (fileLines u.file).map (fun lines => mkExample u.file lines u.line))

/-! ## Helper lemmas -/

/-- Python's `sep in s` test embedded by `splitOnce` agrees with list
infix containment. -/
theorem splitOnce_isSome_iff (sep : List Char) (l : List Char) :
    (splitOnce sep l).isSome ↔ sep <:+: l := by
  induction l with
  | nil =>
    by_cases h : sep = [] <;> simp [splitOnce, h, List.infix_nil]
  | cons c cs ih =>
    rw [ List.infix_cons_iff, ← List.isPrefixOf_iff_prefix, ← ih]
    by_cases h : sep.isPrefixOf (c :: cs)
    · simp [splitOnce, h]
    · rcases hs : splitOnce sep cs with _ | ⟨pre, post⟩ <;>
        simp [splitOnce, h, hs]

/-- Containment of a one-character separator is membership. -/
theorem singleton_infix_iff_mem (a : Char) (l : List Char) :
    [a] <:+: l ↔ a ∈ l := by
  constructor
  · intro h; exact h.mem (by simp)
  · intro h
    obtain ⟨s, t, rfl⟩ := List.append_of_mem h
    exact ⟨s, t, by simp⟩

/-! ## C6 — project-type detection -/

/-- C6: project-type detection returns exactly one of npm, pip, maven,
gradle, unknown, decided first-match-wins over the marker files:
package.json yields npm, else pom.xml yields maven, else requirements.txt
or setup.py yields pip, else build.gradle or build.gradle.kts yields
gradle, else unknown; a repository with several markers resolves to the
first match in this order. -/
theorem detect_project_type_first_match (files : List String) :
    detectProjectType files ∈ ["npm", "pip", "maven", "gradle", "unknown"] ∧
    ("package.json" ∈ files → detectProjectType files = "npm") ∧
    ("package.json" ∉ files → "pom.xml" ∈ files →
      detectProjectType files = "maven") ∧
    ("package.json" ∉ files → "pom.xml" ∉ files →
      ("requirements.txt" ∈ files ∨ "setup.py" ∈ files) →
      detectProjectType files = "pip") ∧
    ("package.json" ∉ files → "pom.xml" ∉ files → "requirements.txt" ∉ files →
      "setup.py" ∉ files → ("build.gradle" ∈ files ∨ "build.gradle.kts" ∈ files) →
      detectProjectType files = "gradle") ∧
    ("package.json" ∉ files → "pom.xml" ∉ files → "requirements.txt" ∉ files →
      "setup.py" ∉ files → "build.gradle" ∉ files → "build.gradle.kts" ∉ files →
      detectProjectType files = "unknown") := by
  refine ⟨?_, ?_, ?_, ?_, ?_, ?_⟩
  · unfold detectProjectType
    repeat' split
    all_goals simp
  · intro h; simp [detectProjectType, h]
  · intro h1 h2; simp [detectProjectType, h1, h2]
  · rintro h1 h2 (h3 | h3) <;> simp [detectProjectType, h1, h2, h3]
  · rintro h1 h2 h3 h4 (h5 | h5) <;> simp [detectProjectType, h1, h2, h3, h4, h5]
  · intro h1 h2 h3 h4 h5 h6; simp [detectProjectType, h1, h2, h3, h4, h5, h6]

/-- Witness: a repository containing pom.xml, package.json and
requirements.txt resolves to npm, the first match. -/
theorem detect_project_type_first_match_witness :
    detectProjectType ["pom.xml", "package.json", "requirements.txt"] = "npm" :=
  (detect_project_type_first_match
    ["pom.xml", "package.json", "requirements.txt"]).2.1 (by decide)

/-! ## C10 — unsupported project type raises -/

/-- C10: on a repository with none of the six marker files,
`scan_dependencies` raises `ValueError("Unsupported project type: unknown")`
and `get_upgrade_candidates` propagates the exception instead of returning
an empty candidate list. -/
theorem unsupported_project_type_raises (env : ScanEnv) (min_severity : String)
    (h1 : "package.json" ∉ env.files) (h2 : "pom.xml" ∉ env.files)
    (h3 : "requirements.txt" ∉ env.files) (h4 : "setup.py" ∉ env.files)
    (h5 : "build.gradle" ∉ env.files) (h6 : "build.gradle.kts" ∉ env.files) :
    scanDependencies env = .error "Unsupported project type: unknown" ∧
    getUpgradeCandidatesE env min_severity =
      .error "Unsupported project type: unknown" := by
  have hd : detectProjectType env.files = "unknown" := by
    simp [detectProjectType, h1, h2, h3, h4, h5, h6]
  have hs : scanDependencies env = .error "Unsupported project type: unknown" := by
    simp [scanDependencies, hd]
  exact ⟨hs, by simp [getUpgradeCandidatesE, hs]⟩

/-- Witness: the empty repository root has no marker file, so both
operations report the unsupported-project-type error. -/
theorem unsupported_project_type_raises_witness :
    scanDependencies ⟨[], [], [], [], []⟩ =
      .error "Unsupported project type: unknown" ∧
    getUpgradeCandidatesE ⟨[], [], [], [], []⟩ "medium" =
      .error "Unsupported project type: unknown" :=
  unsupported_project_type_raises ⟨[], [], [], [], []⟩ "medium"
    (by decide) (by decide) (by decide) (by decide) (by decide) (by decide)

/-! ## C3 — the scratch directory leaks on a manifest-write exception -/

/-- C3: evaluating `_check_vulnerabilities` at the failing input — an
exception raised while writing the scratch manifest (for example, disk
full during `json.dump`) — shows the call returning `[]` with the
`temp_audit` scratch directory still present (`false` in the second
component), contradicting the claimed guaranteed cleanup: the outer
`except` handler of line 437 returns without `shutil.rmtree`. -/
theorem scratch_dir_leak_on_manifest_write_failure :
    checkVulnerabilitiesNpm "lodash" ⟨true, false, 1, none⟩ = ([], false) ∧
    checkVulnerabilitiesNpm "lodash" ⟨false, true, 1, none⟩ = ([], true) ∧
    checkVulnerabilitiesNpm "lodash" ⟨false, false, 1, none⟩ = ([], true) ∧
    checkVulnerabilitiesNpm "lodash" ⟨false, false, 0, none⟩ = ([], true) := by
  decide

/-! ## C9 — Java usage-pattern candidates -/

/-- C9: for a Java dependency whose artifact id contains a hyphen, the
usage locator's candidate list includes the literal artifact id, its
camelCase transform and its PascalCase transform; in particular the
artifact id spring-boot-starter yields the candidates spring-boot-starter,
springBootStarter and SpringBootStarter. -/
theorem java_usage_candidates (dependency_name : String)
    (h : '-' ∈ (artifactIdOf dependency_name).data) :
    artifactIdOf dependency_name ∈ packageNameCandidates dependency_name ∧
    camelCaseOf (artifactIdOf dependency_name) ∈
      packageNameCandidates dependency_name ∧
    pascalCaseOf (artifactIdOf dependency_name) ∈
      packageNameCandidates dependency_name ∧
    packageNameCandidates "org.springframework.boot:spring-boot-starter" =
      ["spring-boot-starter", "springBootStarter", "SpringBootStarter"] := by
  have hsome : (splitOnce ['-'] (artifactIdOf dependency_name).data).isSome := by
    rw [splitOnce_isSome_iff, singleton_infix_iff_mem]
    exact h
  refine ⟨?_, ?_, ?_, by decide⟩ <;>
    simp [packageNameCandidates, hsome]

/-- Witness: the spring-boot-starter coordinate contains a hyphenated
artifact id, and all three transforms are among its candidates. -/
theorem java_usage_candidates_witness :
    artifactIdOf "org.springframework.boot:spring-boot-starter" ∈
      packageNameCandidates "org.springframework.boot:spring-boot-starter" ∧
    camelCaseOf (artifactIdOf "org.springframework.boot:spring-boot-starter") ∈
      packageNameCandidates "org.springframework.boot:spring-boot-starter" ∧
    pascalCaseOf (artifactIdOf "org.springframework.boot:spring-boot-starter") ∈
      packageNameCandidates "org.springframework.boot:spring-boot-starter" :=
  have h := java_usage_candidates "org.springframework.boot:spring-boot-starter"
    (by decide)
  ⟨h.1, h.2.1, h.2.2.1⟩

/-! ## C7 — the pip manifest recognizes exactly the exact-pin lines -/

/-- C7: the pip manifest scanner skips blank lines and lines whose first
non-whitespace character is #, silently ignores nonempty non-comment lines
without the exact-pin operator ==, recognizes every remaining line that
contains ==, and on the manifest flask==2.0.1, a comment and a blank line
returns exactly the dependency flask at 2.0.1. -/
theorem pip_manifest_exact_pin (line : String) :
    (pyStrip line = "" ∨ pyStartsWith (pyStrip line) "#" = true →
      scanPipLine line = none) ∧
    (pyStrip line ≠ "" → pyStartsWith (pyStrip line) "#" = false →
      ¬ (['=', '='] <:+: (pyStrip line).data) → scanPipLine line = none) ∧
    (pyStrip line ≠ "" → pyStartsWith (pyStrip line) "#" = false →
      ['=', '='] <:+: (pyStrip line).data → (scanPipLine line).isSome) ∧
    parseRequirements ["flask==2.0.1", "# comment", ""] = [("flask", "2.0.1")] := by
  refine ⟨?_, ?_, ?_, by decide⟩
  · rintro (h | h) <;> simp [scanPipLine, h]
  · intro h1 h2 h3
    rw [← splitOnce_isSome_iff] at h3
    rcases hs : splitOnce ['=', '='] (pyStrip line).data with _ | ⟨name, ver⟩
    · simp [scanPipLine, h1, h2, hs]
    · exact absurd (by simp [hs]) h3
  · intro h1 h2 h3
    rw [← splitOnce_isSome_iff] at h3
    rcases hs : splitOnce ['=', '='] (pyStrip line).data with _ | ⟨name, ver⟩
    · rw [hs] at h3; simp at h3
    · simp [scanPipLine, h1, h2, hs]

/-- Witness: the line flask>=2.0 is ignored, the line flask==2.0.1 is
recognized. -/
theorem pip_manifest_exact_pin_witness :
    scanPipLine "flask>=2.0" = none ∧ (scanPipLine "flask==2.0.1").isSome :=
  ⟨(pip_manifest_exact_pin "flask>=2.0").2.1 (by decide) (by decide) (by decide),
    (pip_manifest_exact_pin "flask==2.0.1").2.2.1 (by decide) (by decide) (by decide)⟩

/-! ## C8 — pip dependency updates keep the other lines verbatim -/

/-- When no line matches the pin test, the rewriting loop keeps every line
and reports the pin as not found. -/
theorem updatePipLoop_no_match (dependency_name target_version : String)
    (lines : List String)
    (h : ∀ l ∈ lines, matchesPin dependency_name l = false) :
    updatePipLoop dependency_name target_version lines = (lines, false) := by
  induction lines with
  | nil => rfl
  | cons l ls ih =>
    have hl := h l (by simp)
    have ihl := ih (fun x hx => h x (by simp [hx]))
    simp [updatePipLoop, ihl, hl]

/-- When exactly one line matches the pin test, the rewriting loop replaces
only that line and reports the pin as found. -/
theorem updatePipLoop_single_match (dependency_name target_version : String)
    (pre post : List String) (l0 : String)
    (hpre : ∀ l ∈ pre, matchesPin dependency_name l = false)
    (hpost : ∀ l ∈ post, matchesPin dependency_name l = false)
    (hl0 : matchesPin dependency_name l0 = true) :
    updatePipLoop dependency_name target_version (pre ++ l0 :: post) =
      (pre ++ pinLine dependency_name target_version :: post, true) := by
  induction pre with
  | nil =>
    simp [updatePipLoop, updatePipLoop_no_match dependency_name target_version post hpost, hl0]
  | cons p ps ih =>
    have hp := hpre p (by simp)
    have ihp := ih (fun x hx => hpre x (by simp [hx]))
    simp only [List.cons_append]
    simp [updatePipLoop, ihp, hp]

/-- C8: writing a pip dependency update for a name with no existing pinned
line appends exactly one new pinned line and leaves every existing line
unchanged; updating a name with exactly one pinned line replaces only that
line with the new pin and preserves all other lines verbatim. -/
theorem update_pip_requirements_frame (dependency_name target_version : String)
    (lines pre post : List String) (l0 : String)
    (habs : ∀ l ∈ lines, matchesPin dependency_name l = false)
    (hpre : ∀ l ∈ pre, matchesPin dependency_name l = false)
    (hpost : ∀ l ∈ post, matchesPin dependency_name l = false)
    (hl0 : matchesPin dependency_name l0 = true) :
    updatePipRequirements dependency_name target_version lines =
      lines ++ [pinLine dependency_name target_version] ∧
    updatePipRequirements dependency_name target_version (pre ++ l0 :: post) =
      pre ++ pinLine dependency_name target_version :: post := by
  constructor
  · simp [updatePipRequirements,
      updatePipLoop_no_match dependency_name target_version lines habs]
  · simp [updatePipRequirements,
      updatePipLoop_single_match dependency_name target_version pre post l0
        hpre hpost hl0]

/-- Witness: appending a missing flask pin to a one-line manifest, and
replacing the single flask pin between two untouched neighbours. -/
theorem update_pip_requirements_frame_witness :
    updatePipRequirements "flask" "2.1.0" ["requests==2.0.0\n"] =
      ["requests==2.0.0\n", "flask==2.1.0\n"] ∧
    updatePipRequirements "flask" "2.1.0"
      (["requests==2.0.0\n"] ++ "flask==2.0.1\n" :: ["numpy==1.2.3\n"]) =
      ["requests==2.0.0\n"] ++ "flask==2.1.0\n" :: ["numpy==1.2.3\n"] := by
  have h := update_pip_requirements_frame "flask" "2.1.0" ["requests==2.0.0\n"]
    ["requests==2.0.0\n"] ["numpy==1.2.3\n"] "flask==2.0.1\n"
    (by decide) (by decide) (by decide) (by decide)
  exact ⟨h.1, h.2⟩

/-! ## C1 — the update classifier -/

/-- C1 (amended): the classifier returns none exactly on equal version
strings; on distinct strings that both parse it returns major when the
latest major component exceeds the current one (regardless of minor/patch
deltas), else minor when the latest minor component exceeds the current
one, else — when neither the major nor the minor component increased —
patch; in particular distinct strings with equal parsed (major, minor,
patch) tuples classify as patch, not none; and unknown when the strings
differ and either fails to parse. -/
theorem update_classifier_rule (currentVersion latestVersion : String) :
    (latestVersion = currentVersion →
      classifyUpdate currentVersion latestVersion = "none") ∧
    (∀ c l, semverParse currentVersion = some c →
      semverParse latestVersion = some l → c.major < l.major →
      classifyUpdate currentVersion latestVersion = "major") ∧
    (∀ c l, semverParse currentVersion = some c →
      semverParse latestVersion = some l → l.major ≤ c.major →
      c.minor < l.minor →
      classifyUpdate currentVersion latestVersion = "minor") ∧
    (∀ c l, latestVersion ≠ currentVersion →
      semverParse currentVersion = some c →
      semverParse latestVersion = some l → l.major ≤ c.major →
      l.minor ≤ c.minor →
      classifyUpdate currentVersion latestVersion = "patch") ∧
    (latestVersion ≠ currentVersion →
      (semverParse currentVersion = none ∨ semverParse latestVersion = none) →
      classifyUpdate currentVersion latestVersion = "unknown") ∧
    (∀ c l, latestVersion ≠ currentVersion →
      semverParse currentVersion = some c →
      semverParse latestVersion = some l → c.major = l.major →
      c.minor = l.minor → c.patch = l.patch →
      classifyUpdate currentVersion latestVersion = "patch") := by
  refine ⟨?_, ?_, ?_, ?_, ?_, ?_⟩
  · intro h; simp [classifyUpdate, h]
  · intro c l hc hl hm
    have hne : latestVersion ≠ currentVersion := by
      intro he; rw [he, hc] at hl; cases hl; omega
    simp [classifyUpdate, hne, hc, hl, hm]
  · intro c l hc hl hm1 hm2
    have hne : latestVersion ≠ currentVersion := by
      intro he; rw [he, hc] at hl; cases hl; omega
    have hA : ¬ l.major > c.major := by omega
    simp [classifyUpdate, hne, hc, hl, hA, hm2]
  · intro c l hne hc hl h1 h2
    have hA : ¬ l.major > c.major := by omega
    have hB : ¬ l.minor > c.minor := by omega
    simp [classifyUpdate, hne, hc, hl, hA, hB]
  · rintro hne (h | h)
    · simp [classifyUpdate, hne, h]
    · rcases hc : semverParse currentVersion with _ | c <;>
        simp [classifyUpdate, hne, hc, h]
  · intro c l hne hc hl h1 h2 h3
    have hA : ¬ l.major > c.major := by omega
    have hB : ¬ l.minor > c.minor := by omega
    simp [classifyUpdate, hne, hc, hl, hA, hB]

/-- Witness: one concrete instance of each classification branch,
including an ordinary patch-only bump. -/
theorem update_classifier_rule_witness :
    classifyUpdate "1.2.3" "1.2.3" = "none" ∧
    classifyUpdate "1.2.3" "2.0.0" = "major" ∧
    classifyUpdate "1.2.3" "1.3.0" = "minor" ∧
    classifyUpdate "1.2.3" "1.2.4" = "patch" ∧
    classifyUpdate "1.2.3" "wat" = "unknown" ∧
    classifyUpdate "1.0.0-alpha" "1.0.0-beta" = "patch" := by
  refine ⟨(update_classifier_rule "1.2.3" "1.2.3").1 rfl, ?_, ?_, ?_, ?_, ?_⟩
  · exact (update_classifier_rule "1.2.3" "2.0.0").2.1 ⟨1, 2, 3, [], []⟩
      ⟨2, 0, 0, [], []⟩ (by decide) (by decide) (by decide)
  · exact (update_classifier_rule "1.2.3" "1.3.0").2.2.1 ⟨1, 2, 3, [], []⟩
      ⟨1, 3, 0, [], []⟩ (by decide) (by decide) (by decide) (by decide)
  · exact (update_classifier_rule "1.2.3" "1.2.4").2.2.2.1 ⟨1, 2, 3, [], []⟩
      ⟨1, 2, 4, [], []⟩ (by decide) (by decide) (by decide) (by decide)
      (by decide)
  · exact (update_classifier_rule "1.2.3" "wat").2.2.2.2.1 (by decide)
      (Or.inr (by decide))
  · exact (update_classifier_rule "1.0.0-alpha" "1.0.0-beta").2.2.2.2.2
      ⟨1, 0, 0, ["alpha"], []⟩ ⟨1, 0, 0, ["beta"], []⟩ (by decide) (by decide)
      (by decide) rfl rfl rfl

/-- Counterexample to C1 as stated: the strings 1.0.0-alpha and 1.0.0-beta
are distinct but parse to the equal (major, minor, patch) tuple (1, 0, 0),
yet the classifier returns patch, not none, because it compares the raw
strings before parsing. -/
theorem update_classifier_counterexample :
    (semverParse "1.0.0-alpha").map (fun v => (v.major, v.minor, v.patch)) =
      some (1, 0, 0) ∧
    (semverParse "1.0.0-beta").map (fun v => (v.major, v.minor, v.patch)) =
      some (1, 0, 0) ∧
    "1.0.0-beta" ≠ "1.0.0-alpha" ∧
    classifyUpdate "1.0.0-alpha" "1.0.0-beta" = "patch" := by decide

/-! ## C2 — the priority rule -/

/-- The per-vulnerability severity test of line 463 counts exactly the
vulnerabilities whose severity tier is at or above the minimum severity
capped at the high tier: high and critical severities qualify for every
minimum severity. -/
theorem qualifiesVuln_iff (min_severity : String) (v : Vuln)
    (hm : min_severity ∈ ["low", "medium", "high", "critical"]) :
    qualifiesVuln min_severity v = true ↔
      ∃ r, severityRank (pyLower v.severity) = some r ∧
        min ((severityRank min_severity).getD 0) 2 ≤ r := by
  have hm' : min_severity = "low" ∨ min_severity = "medium" ∨
      min_severity = "high" ∨ min_severity = "critical" := by simpa using hm
  rcases hm' with rfl | rfl | rfl | rfl <;>
  · by_cases h1 : pyLower v.severity = "critical" <;>
    by_cases h2 : pyLower v.severity = "high" <;>
    by_cases h3 : pyLower v.severity = "medium" <;>
    by_cases h4 : pyLower v.severity = "low" <;>
    simp_all [qualifiesVuln, severityRank]

/-- C2 (amended): the candidate priority is high exactly when some
vulnerability's severity tier is at or above the minimum severity capped
at the high tier — so high and critical vulnerabilities force high
priority for every caller-supplied minimum severity, including critical;
otherwise the priority is medium on a patch update and low otherwise. -/
theorem priority_rule (d : Dep) (min_severity : String)
    (hm : min_severity ∈ ["low", "medium", "high", "critical"]) :
    (upgradePriority min_severity d = "high" ↔
      ∃ v ∈ d.vulnerabilities, ∃ r, severityRank (pyLower v.severity) = some r ∧
        min ((severityRank min_severity).getD 0) 2 ≤ r) ∧
    ((¬ ∃ v ∈ d.vulnerabilities, ∃ r, severityRank (pyLower v.severity) = some r ∧
        min ((severityRank min_severity).getD 0) 2 ≤ r) →
      d.update_type = "patch" → upgradePriority min_severity d = "medium") ∧
    ((¬ ∃ v ∈ d.vulnerabilities, ∃ r, severityRank (pyLower v.severity) = some r ∧
        min ((severityRank min_severity).getD 0) 2 ≤ r) →
      d.update_type ≠ "patch" → upgradePriority min_severity d = "low") := by
  have key : hasVulnerabilities min_severity d = true ↔
      ∃ v ∈ d.vulnerabilities, ∃ r, severityRank (pyLower v.severity) = some r ∧
        min ((severityRank min_severity).getD 0) 2 ≤ r := by
    rw [hasVulnerabilities, List.any_eq_true]
    constructor
    · rintro ⟨v, hv, hq⟩
      exact ⟨v, hv, (qualifiesVuln_iff min_severity v hm).mp hq⟩
    · rintro ⟨v, hv, hq⟩
      exact ⟨v, hv, (qualifiesVuln_iff min_severity v hm).mpr hq⟩
  refine ⟨?_, ?_, ?_⟩
  · rw [← key]
    unfold upgradePriority
    by_cases hv : hasVulnerabilities min_severity d = true <;> simp [hv]
    split <;> simp
  · intro hno hp
    rw [← key] at hno
    simp [upgradePriority, hno, hp]
  · intro hno hp
    rw [← key] at hno
    simp [upgradePriority, hno, hp]

/-- Witness: with minimum severity medium, a high-severity vulnerability
forces high priority. -/
theorem priority_rule_witness :
    upgradePriority "medium"
      ⟨"a", "1.0.0", "1.0.1", "patch", [⟨"high", "d", "u"⟩]⟩ = "high" :=
  (priority_rule ⟨"a", "1.0.0", "1.0.1", "patch", [⟨"high", "d", "u"⟩]⟩ "medium"
      (by decide)).1.mpr
    ⟨⟨"high", "d", "u"⟩, by simp, 2, by decide, by decide⟩

/-- Counterexample to C2 as stated: with minimum severity critical, a
dependency whose only vulnerability has severity high — strictly below the
minimum, so not at or above it — and whose update type is major still gets
priority high, because line 463 counts high and critical severities
unconditionally; the claim as stated requires priority low here. -/
theorem priority_rule_counterexample :
    upgradePriority "critical"
      ⟨"left-pad", "1.0.0", "2.0.0", "major",
        [⟨"high", "prototype pollution", "1.5.0"⟩]⟩ = "high" ∧
    atOrAbove "critical" "high" = false ∧
    (⟨"left-pad", "1.0.0", "2.0.0", "major",
        [⟨"high", "prototype pollution", "1.5.0"⟩]⟩ : Dep).update_type ≠
      "patch" := by
  decide

/-! ## C4 — candidate filtering and stable priority ordering -/

/-- Priority ranks are always one of 0, 1, 2. -/
theorem priorityRank_le_two (p : String) : priorityRank p ≤ 2 := by
  unfold priorityRank
  repeat' split
  all_goals omega

/-- A candidate whose rank is at most every element's rank is inserted at
the front. -/
theorem insertByRank_front (c : Candidate) (l : List Candidate)
    (h : ∀ d ∈ l, priorityRank c.priority ≤ priorityRank d.priority) :
    insertByRank c l = c :: l := by
  cases l with
  | nil => rfl
  | cons d ds => simp [insertByRank, h d (by simp)]

/-- Insertion passes over a block of strictly smaller ranks. -/
theorem insertByRank_append (c : Candidate) (xs ys : List Candidate)
    (h : ∀ d ∈ xs, priorityRank d.priority < priorityRank c.priority) :
    insertByRank c (xs ++ ys) = xs ++ insertByRank c ys := by
  induction xs with
  | nil => rfl
  | cons x xs ih =>
    have hx := h x (by simp)
    have hc : ¬ priorityRank c.priority ≤ priorityRank x.priority := by omega
    simp [insertByRank, hc, ih (fun d hd => h d (by simp [hd]))]

/-- The stable ascending sort by priority rank is the concatenation of the
rank-0, rank-1 and rank-2 blocks, each in original order. -/
theorem sortByPriority_buckets (l : List Candidate) :
    sortByPriority l =
      l.filter (fun c => priorityRank c.priority == 0) ++
      l.filter (fun c => priorityRank c.priority == 1) ++
      l.filter (fun c => priorityRank c.priority == 2) := by
  induction l with
  | nil => rfl
  | cons c cs ih =>
    have hb0 : ∀ d ∈ cs.filter (fun c => priorityRank c.priority == 0),
        priorityRank d.priority = 0 := by
      intro d hd; simpa using (List.mem_filter.mp hd).2
    have hb1 : ∀ d ∈ cs.filter (fun c => priorityRank c.priority == 1),
        priorityRank d.priority = 1 := by
      intro d hd; simpa using (List.mem_filter.mp hd).2
    have hb2 : ∀ d ∈ cs.filter (fun c => priorityRank c.priority == 2),
        priorityRank d.priority = 2 := by
      intro d hd; simpa using (List.mem_filter.mp hd).2
    have hcases : priorityRank c.priority = 0 ∨ priorityRank c.priority = 1 ∨
        priorityRank c.priority = 2 := by
      have := priorityRank_le_two c.priority; omega
    rcases hcases with hr | hr | hr
    · rw [sortByPriority, ih,
        insertByRank_front c _ (fun d _ => by rw [hr]; exact Nat.zero_le _)]
      simp [List.filter_cons, hr]
    · have hsmall : ∀ d ∈ cs.filter (fun c => priorityRank c.priority == 0),
          priorityRank d.priority < priorityRank c.priority := by
        intro d hd; rw [hb0 d hd, hr]; omega
      have hfront : ∀ d ∈ cs.filter (fun c => priorityRank c.priority == 1) ++
          cs.filter (fun c => priorityRank c.priority == 2),
          priorityRank c.priority ≤ priorityRank d.priority := by
        intro d hd
        rcases List.mem_append.mp hd with h | h
        · rw [hb1 d h, hr]
        · rw [hb2 d h, hr]; omega
      rw [sortByPriority, ih, List.append_assoc,
        insertByRank_append c _ _ hsmall, insertByRank_front c _ hfront]
      simp [List.filter_cons, hr]
    · have hsmall : ∀ d ∈ cs.filter (fun c => priorityRank c.priority == 0) ++
          cs.filter (fun c => priorityRank c.priority == 1),
          priorityRank d.priority < priorityRank c.priority := by
        intro d hd
        rcases List.mem_append.mp hd with h | h
        · rw [hb0 d h, hr]; omega
        · rw [hb1 d h, hr]; omega
      have hfront : ∀ d ∈ cs.filter (fun c => priorityRank c.priority == 2),
          priorityRank c.priority ≤ priorityRank d.priority := by
        intro d hd; rw [hb2 d hd, hr]
      rw [sortByPriority, ih, insertByRank_append c _ _ hsmall,
        insertByRank_front c _ hfront]
      simp [List.filter_cons, hr]

/-- Membership in the filtering loop's output characterizes the kept
dependencies. -/
theorem mem_collectCandidates (min_severity : String) (deps : List Dep)
    (c : Candidate) :
    c ∈ collectCandidates min_severity deps ↔
      ∃ d ∈ deps, (d.latest_version ≠ "unknown" ∧
        d.latest_version ≠ d.current_version) ∧
        c = mkCandidate min_severity d := by
  induction deps with
  | nil => simp [collectCandidates]
  | cons d ds ih =>
    by_cases h : d.latest_version ≠ "unknown" ∧ d.latest_version ≠ d.current_version
    · simp only [collectCandidates, if_pos h, List.mem_cons, ih,
        List.mem_cons]
      constructor
      · rintro (rfl | ⟨e, he, hk, rfl⟩)
        · exact ⟨d, Or.inl rfl, h, rfl⟩
        · exact ⟨e, Or.inr he, hk, rfl⟩
      · rintro ⟨e, (rfl | he), hk, rfl⟩
        · exact Or.inl rfl
        · exact Or.inr ⟨e, he, hk, rfl⟩
    · simp only [collectCandidates, if_neg h, ih, List.mem_cons]
      constructor
      · rintro ⟨e, he, hk, rfl⟩
        exact ⟨e, Or.inr he, hk, rfl⟩
      · rintro ⟨e, (rfl | he), hk, rfl⟩
        · exact absurd hk h
        · exact ⟨e, he, hk, rfl⟩

/-- C4: the ranker returns exactly those scanned dependencies whose latest
version is known and differs from the current one; its output is the
stable ascending arrangement by priority rank — the rank-0 (high) block,
then the rank-1 (medium) block, then the rank-2 (low) block, each in
original scan order — and a dependency carrying a high-severity
vulnerability precedes a dependency with only a patch-level bump in both
scan orders. -/
theorem upgrade_candidates_ranking (deps : List Dep) (min_severity : String)
    (d1 d2 : Dep)
    (h1v : ∃ v ∈ d1.vulnerabilities, pyLower v.severity = "high")
    (h1l : d1.latest_version ≠ "unknown")
    (h1c : d1.latest_version ≠ d1.current_version)
    (h2t : d2.update_type = "patch")
    (h2v : hasVulnerabilities min_severity d2 = false)
    (h2l : d2.latest_version ≠ "unknown")
    (h2c : d2.latest_version ≠ d2.current_version) :
    (∀ c, c ∈ getUpgradeCandidatesFrom deps min_severity ↔
      ∃ d ∈ deps, (d.latest_version ≠ "unknown" ∧
        d.latest_version ≠ d.current_version) ∧
        c = mkCandidate min_severity d) ∧
    getUpgradeCandidatesFrom deps min_severity =
      (collectCandidates min_severity deps).filter
        (fun c => priorityRank c.priority == 0) ++
      (collectCandidates min_severity deps).filter
        (fun c => priorityRank c.priority == 1) ++
      (collectCandidates min_severity deps).filter
        (fun c => priorityRank c.priority == 2) ∧
    getUpgradeCandidatesFrom [d1, d2] min_severity =
      [mkCandidate min_severity d1, mkCandidate min_severity d2] ∧
    getUpgradeCandidatesFrom [d2, d1] min_severity =
      [mkCandidate min_severity d1, mkCandidate min_severity d2] := by
  have hpri1 : upgradePriority min_severity d1 = "high" := by
    have hv : hasVulnerabilities min_severity d1 = true := by
      rw [hasVulnerabilities, List.any_eq_true]
      obtain ⟨v, hv, hs⟩ := h1v
      exact ⟨v, hv, by simp [qualifiesVuln, hs]⟩
    simp [upgradePriority, hv]
  have hpri2 : upgradePriority min_severity d2 = "medium" := by
    simp [upgradePriority, h2v, h2t]
  refine ⟨?_, ?_, ?_, ?_⟩
  · intro c
    have hperm : c ∈ getUpgradeCandidatesFrom deps min_severity ↔
        c ∈ collectCandidates min_severity deps := by
      rw [getUpgradeCandidatesFrom, sortByPriority_buckets]
      simp only [List.mem_append, List.mem_filter]
      constructor
      · rintro ((⟨h, _⟩ | ⟨h, _⟩) | ⟨h, _⟩) <;> exact h
      · intro h
        have hle := priorityRank_le_two c.priority
        have : priorityRank c.priority = 0 ∨ priorityRank c.priority = 1 ∨
            priorityRank c.priority = 2 := by omega
        rcases this with hr | hr | hr
        · exact Or.inl (Or.inl ⟨h, by simp [hr]⟩)
        · exact Or.inl (Or.inr ⟨h, by simp [hr]⟩)
        · exact Or.inr ⟨h, by simp [hr]⟩
    rw [hperm, mem_collectCandidates]
  · rw [getUpgradeCandidatesFrom, sortByPriority_buckets]
  · have hcol : collectCandidates min_severity [d1, d2] =
        [mkCandidate min_severity d1, mkCandidate min_severity d2] := by
      simp [collectCandidates, h1l, h1c, h2l, h2c]
    rw [getUpgradeCandidatesFrom, hcol]
    simp [sortByPriority, insertByRank, mkCandidate, hpri1, hpri2, priorityRank]
  · have hcol : collectCandidates min_severity [d2, d1] =
        [mkCandidate min_severity d2, mkCandidate min_severity d1] := by
      simp [collectCandidates, h1l, h1c, h2l, h2c]
    rw [getUpgradeCandidatesFrom, hcol]
    simp [sortByPriority, insertByRank, mkCandidate, hpri1, hpri2, priorityRank]

/-- Witness: a vulnerable major bump ranks before a clean patch bump in
both scan orders. -/
theorem upgrade_candidates_ranking_witness :
    getUpgradeCandidatesFrom
      [⟨"lodash", "1.0.0", "2.0.0", "major", [⟨"high", "d", "u"⟩]⟩,
       ⟨"react", "1.0.0", "1.0.1", "patch", []⟩] "medium" =
      [mkCandidate "medium" ⟨"lodash", "1.0.0", "2.0.0", "major", [⟨"high", "d", "u"⟩]⟩,
       mkCandidate "medium" ⟨"react", "1.0.0", "1.0.1", "patch", []⟩] ∧
    getUpgradeCandidatesFrom
      [⟨"react", "1.0.0", "1.0.1", "patch", []⟩,
       ⟨"lodash", "1.0.0", "2.0.0", "major", [⟨"high", "d", "u"⟩]⟩] "medium" =
      [mkCandidate "medium" ⟨"lodash", "1.0.0", "2.0.0", "major", [⟨"high", "d", "u"⟩]⟩,
       mkCandidate "medium" ⟨"react", "1.0.0", "1.0.1", "patch", []⟩] :=
  have h := upgrade_candidates_ranking []
    "medium" ⟨"lodash", "1.0.0", "2.0.0", "major", [⟨"high", "d", "u"⟩]⟩
    ⟨"react", "1.0.0", "1.0.1", "patch", []⟩
    ⟨⟨"high", "d", "u"⟩, by simp, by decide⟩ (by decide) (by decide) (by decide)
    (by decide) (by decide) (by decide)
  ⟨h.2.2.1, h.2.2.2⟩


/-! ## C5 — impact-summarizer snippet extraction -/

/-- The slice around a hit keeps exactly the lines from 5 before the hit
up to, but excluding, 15 after it: in absolute terms, take the prefix of
0-based length (line + 14) — 1-based lines up to line + 14 — then drop the
first (line - 6) entries — 1-based lines below line - 5. -/
theorem snippetWindow_eq (lines : List String) (line : Int) (h : 1 ≤ line) :
    snippetWindow lines line =
      (lines.take (line + 14).toNat).drop (line - 6).toNat := by
  simp only [snippetWindow]
  have hstart : (max 0 (line - 1 - 5)).toNat = (line - 6).toNat := by omega
  rw [hstart, List.drop_take, List.take_eq_take]
  simp only [List.length_drop]
  omega

/-- The extraction loop, below the maximum count, appends the
deduplicated readable-file snippets truncated to the remaining budget. -/
theorem extractLoop_eq (fileLines : String → Option (List String))
    (max_examples : Nat) (usages : List Usage) :
    ∀ (seen : List String) (examples : List String),
      examples.length < max_examples →
      extractLoop fileLines max_examples usages seen examples =
        examples ++ ((dedupByFile usages seen).filterMap
          (fun u => (fileLines u.file).map
            (fun lines => mkExample u.file lines u.line))).take
          (max_examples - examples.length) := by
  induction usages with
  | nil => intro seen ex hex; simp [extractLoop, dedupByFile]
  | cons u us ih =>
    intro seen ex hex
    by_cases hseen : seen.contains u.file
    · have hmem : u.file ∈ seen := by simpa using hseen
      simp [extractLoop, dedupByFile, hseen, hmem, ih seen ex hex]
    · have hmem : u.file ∉ seen := by simpa using hseen
      rcases hfl : fileLines u.file with _ | ls
      · simp [extractLoop, dedupByFile, hseen, hmem, hfl,
          ih (u.file :: seen) ex hex]
      · by_cases hstop : max_examples ≤ ex.length + 1
        · have hm1 : max_examples - ex.length = 1 := by omega
          simp [extractLoop, dedupByFile, hseen, hmem, hfl, hstop, hm1]
        · have hlt : (ex ++ [mkExample u.file ls u.line]).length <
              max_examples := by simp; omega
          have hrec := ih (u.file :: seen) (ex ++ [mkExample u.file ls u.line]) hlt
          simp only [List.length_append, List.length_cons, List.length_nil,
            Nat.add_zero, Nat.zero_add] at hrec
          simp [extractLoop, dedupByFile, hseen, hmem, hfl, hstop, hrec]
          have hm : max_examples - ex.length =
              (max_examples - (ex.length + 1)) + 1 := by omega
          rw [hm, List.take_succ_cons]

/-- C5 (amended): for every positive maximum snippet count, the extractor
returns the first-hit-per-file deduplicated snippet list of the readable
files truncated to the maximum, so it emits at most one snippet per
distinct file (later hits in an already-visited file are skipped) and at
most the maximum number of snippets; each snippet's window spans the 5
lines before the hit line through the 14 lines after it, clamped to the
file bounds (the slice's upper bound, hit + 15, is exclusive). -/
theorem impact_snippet_extraction (fileLines : String → Option (List String))
    (usages : List Usage) (max_examples : Nat) (hm : 1 ≤ max_examples) :
    extractApiUsageExamples fileLines usages max_examples =
      (specSnippets fileLines usages).take max_examples ∧
    (extractApiUsageExamples fileLines usages max_examples).length ≤
      max_examples ∧
    (∀ (lines : List String) (line : Int), 1 ≤ line →
      snippetWindow lines line =
        (lines.take (line + 14).toNat).drop (line - 6).toNat) := by
  have h1 : extractApiUsageExamples fileLines usages max_examples =
      (specSnippets fileLines usages).take max_examples := by
    rw [extractApiUsageExamples, specSnippets,
      extractLoop_eq fileLines max_examples usages [] [] (by simpa using hm)]
    simp
  refine ⟨h1, ?_, fun lines line hl => snippetWindow_eq lines line hl⟩
  rw [h1]
  exact List.length_take_le max_examples _

/-- Witness: with the default maximum of 10 and two hits in one two-line
file, the extractor agrees with the truncated deduplicated snippet list. -/
theorem impact_snippet_extraction_witness :
    extractApiUsageExamples
        (fun f => if f = "app.py" then some ["x", "y"] else none)
        [⟨"app.py", 1⟩, ⟨"app.py", 2⟩] 10 =
      (specSnippets (fun f => if f = "app.py" then some ["x", "y"] else none)
        [⟨"app.py", 1⟩, ⟨"app.py", 2⟩]).take 10 :=
  (impact_snippet_extraction
    (fun f => if f = "app.py" then some ["x", "y"] else none)
    [⟨"app.py", 1⟩, ⟨"app.py", 2⟩] 10 (by decide)).1

/-- Counterexample to C5 as stated: in a 40-line file with a hit at line
20, the snippet covers lines 15 through 34 — 5 before the hit through 14
after it — and omits line 35, which the claimed 15-lines-after window
would include; moreover with maximum snippet count 0 the extractor still
returns one snippet, because the stop check runs only after appending. -/
theorem impact_snippet_extraction_counterexample :
    extractApiUsageExamples
        (fun f => if f = "app.py" then some
          ["a1", "a2", "a3", "a4", "a5", "a6", "a7", "a8", "a9", "a10",
           "a11", "a12", "a13", "a14", "a15", "a16", "a17", "a18", "a19", "a20",
           "a21", "a22", "a23", "a24", "a25", "a26", "a27", "a28", "a29", "a30",
           "a31", "a32", "a33", "a34", "a35", "a36", "a37", "a38", "a39", "a40"]
          else none)
        [⟨"app.py", 20⟩] 10 =
      ["File: app.py\n```\na15\na16\na17\na18\na19\na20\na21\na22\na23\na24\na25\na26\na27\na28\na29\na30\na31\na32\na33\na34\n```"] ∧
    extractApiUsageExamples
        (fun f => if f = "app.py" then some
          ["a1", "a2", "a3", "a4", "a5", "a6", "a7", "a8", "a9", "a10",
           "a11", "a12", "a13", "a14", "a15", "a16", "a17", "a18", "a19", "a20",
           "a21", "a22", "a23", "a24", "a25", "a26", "a27", "a28", "a29", "a30",
           "a31", "a32", "a33", "a34", "a35", "a36", "a37", "a38", "a39", "a40"]
          else none)
        [⟨"app.py", 20⟩] 0 =
      ["File: app.py\n```\na15\na16\na17\na18\na19\na20\na21\na22\na23\na24\na25\na26\na27\na28\na29\na30\na31\na32\na33\na34\n```"] := by
  decide


